import Mathlib

/-!
Verification of the matching-and-attendance core of the MiCulturaPlanner
backend.  The Python source is shallowly embedded: IEEE floats are
idealised as real numbers (`ℝ`), database rows become Lean structures,
and each database helper becomes a pure function on an explicit
database state.  Stored embedding vectors are modelled as the decoded
numeric vectors (the source stores them as JSON text and skips rows
whose JSON fails to decode).
-/

set_option maxHeartbeats 1000000

/-! ## Configuration constants (app/core/config.py, Settings) -/

/-- Settings.FACE_CONFIDENCE_THRESHOLD, default 0.70. -/
def FACE_CONFIDENCE_THRESHOLD : ℚ := 7/10

/-- Settings.FACE_DISTANCE_THRESHOLD, default 0.4. -/
def FACE_DISTANCE_THRESHOLD : ℚ := 2/5

/-- Settings.MAX_FACE_MATCHES, default 5. -/
def MAX_FACE_MATCHES : ℕ := 5

/-- Settings.MAX_UPLOAD_SIZE, 10 MB. -/
def MAX_UPLOAD_SIZE : ℕ := 10485760

/-- Settings.ALLOWED_IMAGE_EXTENSIONS. -/
def ALLOWED_IMAGE_EXTENSIONS : List String := ["jpg", "jpeg", "png"]

/-- The ambiguity margin literal `0.10` used in facial.py line 155. -/
def AMBIGUITY_MARGIN : ℚ := 1/10

/-! ## app/utils/face_recognition.py -/

/-- Dot product of two vectors, `numpy.dot` on 1-d arrays. -/
def dotList (u v : List ℝ) : ℝ := (List.zipWith (· * ·) u v).sum

/-- `scipy.spatial.distance.cosine`: defined (`some`) only when the two
vectors have the same length; on mismatched lengths scipy raises
(`none`).  The value is `1 - u·v / (‖u‖ ‖v‖)`. -/
noncomputable def scipy_cosine (u v : List ℝ) : Option ℝ :=
  if u.length = v.length then
    some (1 - dotList u v / (Real.sqrt (dotList u u) * Real.sqrt (dotList v v)))
  else none

/-- `calculate_face_distance` (face_recognition.py lines 122-137): calls
`scipy.spatial.distance.cosine` and totalises any error to the maximum
distance 2.0. -/
noncomputable def calculate_face_distance (u v : List ℝ) : ℝ :=
  (scipy_cosine u v).getD 2

/-- The confidence formula `max(0.0, min(1.0, 1.0 - distance / 2.0))`
used in face_embeddings.py line 159 and face_recognition.py line 159. -/
noncomputable def confidenceOf (d : ℝ) : ℝ :=
  max 0 (min 1 (1 - d / 2))

/-- `validate_image_file` (face_recognition.py lines 236-270): byte
content is valid iff it is at least 1000 bytes, at most
MAX_UPLOAD_SIZE, and starts with a JPEG, PNG or GIF magic header.
The bytes are modelled as a list of naturals. -/
def validate_image_file (content : List ℕ) : Bool :=
  if content.length < 1000 then false
  else if content.length > MAX_UPLOAD_SIZE then false
  else if [0xff, 0xd8, 0xff].isPrefixOf content then true
  else if [0x89, 0x50, 0x4e, 0x47, 0x0d, 0x0a, 0x1a, 0x0a].isPrefixOf content then true
  else if [0x47, 0x49, 0x46, 0x38].isPrefixOf content then true
  else false

/-! ## app/utils/face_embeddings.py: the gallery and the matcher -/

/-- One row of the `face_embeddings ⋈ tripulantes` join read by
`find_best_face_matches` (face_embeddings.py lines 126-134), carrying
the flags the SQL `WHERE fe.active = TRUE AND t.estatus = 1` filters on. -/
structure StoredEmbedding where
  id : ℕ
  crew_id : String
  id_tripulante : ℕ
  nombres : String
  apellidos : String
  embedding : List ℝ
  confidence : ℝ
  active : Bool
  estatus : ℤ

/-- The transient match dictionary built in face_embeddings.py
lines 163-172. -/
structure Candidate where
  embedding_id : ℕ
  crew_id : String
  id_tripulante : ℕ
  nombres : String
  apellidos : String
  distance : ℝ
  confidence : ℝ
  stored_confidence : ℝ

/-- The SQL row filter `fe.active = TRUE AND t.estatus = 1`. -/
def galleryRows (g : List StoredEmbedding) : List StoredEmbedding :=
  g.filter (fun r => r.active && r.estatus == 1)

/-- Candidate built from one gallery row (face_embeddings.py 163-172). -/
noncomputable def mkCandidate (q : List ℝ) (r : StoredEmbedding) : Candidate :=
  { embedding_id := r.id
    crew_id := r.crew_id
    id_tripulante := r.id_tripulante
    nombres := r.nombres
    apellidos := r.apellidos
    distance := calculate_face_distance q r.embedding
    confidence := confidenceOf (calculate_face_distance q r.embedding)
    stored_confidence := r.confidence }

/-- The unsorted match list of face_embeddings.py lines 141-176: rows
whose vector length differs from the probe's are skipped, the rest are
kept iff `distance <= threshold`. -/
noncomputable def rawCandidates (q : List ℝ) (thr : ℝ) (g : List StoredEmbedding) :
    List Candidate :=
  (galleryRows g).filterMap (fun r =>
    if r.embedding.length = q.length then
      if calculate_face_distance q r.embedding ≤ thr then some (mkCandidate q r)
      else none
    else none)

/-- Comparison key of `matches.sort(key=lambda x: x['distance'])`. -/
def candLE (a b : Candidate) : Prop := a.distance ≤ b.distance

instance : IsTotal Candidate candLE := ⟨fun a b => le_total a.distance b.distance⟩

instance : IsTrans Candidate candLE := ⟨fun _ _ _ hab hbc => le_trans hab hbc⟩

noncomputable instance : DecidableRel candLE :=
  fun a b => inferInstanceAs (Decidable (a.distance ≤ b.distance))

/-- The sorted match list (`matches.sort(...)`, a stable ascending sort
by distance; Python's sort is stable, modelled by insertion sort). -/
noncomputable def sortedCandidates (q : List ℝ) (thr : ℝ) (g : List StoredEmbedding) :
    List Candidate :=
  List.insertionSort candLE (rawCandidates q thr g)

/-- `find_best_face_matches` (face_embeddings.py lines 95-192) on a
gallery snapshot: filter, stable sort ascending by distance, then
`matches[:limit] if limit else matches`. -/
noncomputable def find_best_face_matches (q : List ℝ) (thr : ℝ) (limit : ℕ)
    (g : List StoredEmbedding) : List Candidate :=
  if limit ≠ 0 then (sortedCandidates q thr g).take limit else sortedCandidates q thr g

/-! ## The verdict logic of facial.py lines 136-159 -/

inductive RejectReason where
  | no_candidates : RejectReason
  | low_confidence : RejectReason
  | ambiguous : RejectReason
deriving DecidableEq

inductive Verdict where
  | rejected : RejectReason → Verdict
  | accepted : Candidate → Verdict

/-- The accept/reject decision of facial.py lines 136-159: empty match
list rejects, then `confidence < FACE_CONFIDENCE_THRESHOLD` rejects,
then a gap to the runner-up strictly below the margin rejects, else the
best match is accepted. -/
noncomputable def decide_verdict (confThr margin : ℝ) (ms : List Candidate) : Verdict :=
  match ms with
  | [] => .rejected .no_candidates
  | best :: rest =>
    if best.confidence < confThr then .rejected .low_confidence
    else
      match rest with
      | [] => .accepted best
      | second :: _ =>
        if best.confidence - second.confidence < margin then .rejected .ambiguous
        else .accepted best

/-- The whole matching step of one /recognize call on a fixed gallery
snapshot: `find_best_face_matches` followed by the verdict checks. -/
noncomputable def matcher_verdict (q : List ℝ) (g : List StoredEmbedding)
    (thr confThr margin : ℝ) (limit : ℕ) : Verdict :=
  decide_verdict confThr margin (find_best_face_matches q thr limit g)

/-! ## app/db/database.py: rows and state -/

/-- A `tripulantes` row (the fields used by the facial endpoint). -/
structure Tripulante where
  id_tripulante : ℕ
  crew_id : String
  nombres : String
  apellidos : String
  estatus : ℤ
deriving DecidableEq

/-- A `planificacion` row (the fields used by the facial endpoint). -/
structure Planificacion where
  id : ℕ
  id_evento : ℕ
  id_tripulante : ℕ
  hora_entrada : ℚ
  estatus : String
deriving DecidableEq

/-- A `marcacion` row. -/
structure Marcacion where
  id_marcacion : ℕ
  id_planificacion : ℕ
  id_evento : ℕ
  id_tripulante : ℕ
  crew_id : String
  fecha_marcacion : ℤ
  hora_entrada : Option ℚ
  hora_salida : Option ℚ
  hora_marcacion : ℚ
  lugar_marcacion : ℕ
  punto_control : ℕ
  procesado : String
  tipo_marcacion : ℕ
  usuario : String
  transporte : ℚ
  alimentacion : ℚ
deriving DecidableEq

/-- The `marcacion_data` dict built in facial.py lines 214-230.
`hora_entrada`/`hora_salida` are the only fields that can be NULL. -/
structure MarcacionData where
  id_planificacion : ℕ
  id_evento : ℕ
  id_tripulante : ℕ
  crew_id : String
  fecha_marcacion : ℤ
  hora_entrada : Option ℚ
  hora_salida : Option ℚ
  hora_marcacion : ℚ
  lugar_marcacion : ℕ
  punto_control : ℕ
  procesado : String
  tipo_marcacion : ℕ
  usuario : String
  transporte : ℚ
  alimentacion : ℚ
deriving DecidableEq

/-- The relational state touched by the facial endpoint.  `next_id`
models the `marcacion` AUTO_INCREMENT counter. -/
structure Db where
  tripulantes : List Tripulante
  planificaciones : List Planificacion
  marcaciones : List Marcacion
  next_id : ℕ
deriving DecidableEq

/-- `verificar_marcacion_existente` (database.py lines 367-392):
`SELECT ... WHERE id_tripulante = %s AND id_evento = %s AND
fecha_marcacion = %s LIMIT 1`. -/
def verificar_marcacion_existente (st : Db) (trip ev : ℕ) (fecha : ℤ) :
    Option Marcacion :=
  st.marcaciones.find? (fun m =>
    m.id_tripulante == trip && m.id_evento == ev && m.fecha_marcacion == fecha)

/-- The row INSERTed by `create_marcacion` (database.py lines 394-432). -/
def insertedRecord (id : ℕ) (d : MarcacionData) : Marcacion :=
  { id_marcacion := id
    id_planificacion := d.id_planificacion
    id_evento := d.id_evento
    id_tripulante := d.id_tripulante
    crew_id := d.crew_id
    fecha_marcacion := d.fecha_marcacion
    hora_entrada := d.hora_entrada
    hora_salida := d.hora_salida
    hora_marcacion := d.hora_marcacion
    lugar_marcacion := d.lugar_marcacion
    punto_control := d.punto_control
    procesado := d.procesado
    tipo_marcacion := d.tipo_marcacion
    usuario := d.usuario
    transporte := d.transporte
    alimentacion := d.alimentacion }

/-- `create_marcacion`: INSERT a fresh row, return its id. -/
def create_marcacion (st : Db) (d : MarcacionData) : Db × ℕ :=
  ({ st with
      marcaciones := st.marcaciones ++ [insertedRecord st.next_id d]
      next_id := st.next_id + 1 },
   st.next_id)

/-- The dynamic `SET` of `update_marcacion` (database.py lines 434-476):
every field of the payload is written except those whose value is None
(`hora_entrada`/`hora_salida` are the only optional ones), which keep
the row's previous value. -/
def apply_update (m : Marcacion) (d : MarcacionData) : Marcacion :=
  { id_marcacion := m.id_marcacion
    id_planificacion := d.id_planificacion
    id_evento := d.id_evento
    id_tripulante := d.id_tripulante
    crew_id := d.crew_id
    fecha_marcacion := d.fecha_marcacion
    hora_entrada := match d.hora_entrada with
      | some h => some h
      | none => m.hora_entrada
    hora_salida := match d.hora_salida with
      | some h => some h
      | none => m.hora_salida
    hora_marcacion := d.hora_marcacion
    lugar_marcacion := d.lugar_marcacion
    punto_control := d.punto_control
    procesado := d.procesado
    tipo_marcacion := d.tipo_marcacion
    usuario := d.usuario
    transporte := d.transporte
    alimentacion := d.alimentacion }

/-- `update_marcacion`: UPDATE the row whose `id_marcacion` matches. -/
def update_marcacion (st : Db) (mid : ℕ) (d : MarcacionData) : Db :=
  { st with
      marcaciones := st.marcaciones.map (fun m =>
        if m.id_marcacion = mid then apply_update m d else m) }

/-- `update_planificacion_estatus` (database.py lines 544-576):
`UPDATE planificacion SET estatus = %s WHERE id = %s`. -/
def update_planificacion_estatus (st : Db) (pid : ℕ) (nuevo : String) : Db :=
  { st with
      planificaciones := st.planificaciones.map (fun p =>
        if p.id = pid then { p with estatus := nuevo } else p) }

/-- `get_tripulante_by_field('crew_id', crew)` (database.py lines
193-227): the SQL carries `AND t.estatus = 1`, so only active rows are
ever returned. -/
def get_tripulante_by_crew (tl : List Tripulante) (crew : String) : Option Tripulante :=
  tl.find? (fun t => t.crew_id == crew && t.estatus == 1)

/-- Sort key of `ORDER BY p.hora_entrada ASC`. -/
def planLE (p q : Planificacion) : Prop := p.hora_entrada ≤ q.hora_entrada

instance : IsTotal Planificacion planLE := ⟨fun a b => le_total a.hora_entrada b.hora_entrada⟩

instance : IsTrans Planificacion planLE := ⟨fun _ _ _ hab hbc => le_trans hab hbc⟩

instance : DecidableRel planLE :=
  fun a b => inferInstanceAs (Decidable (a.hora_entrada ≤ b.hora_entrada))

/-- `get_planificacion_evento` (database.py lines 315-365) restricted to
one tripulante, `ORDER BY p.hora_entrada ASC`. -/
def get_planificacion_evento (st : Db) (ev trip : ℕ) : List Planificacion :=
  List.insertionSort planLE (st.planificaciones.filter (fun p =>
    p.id_evento == ev && p.id_tripulante == trip))

/-! ## facial.py lines 187-257: the attendance transition -/

/-- Result of the attendance-writing fragment. -/
structure AttendanceResult where
  st : Db
  tipo_marcacion : ℕ
  tipo_texto : String
  marcacion_id : ℕ
deriving DecidableEq

/-- The `marcacion_data` dict of facial.py lines 214-230:
`hora_entrada` is the scan time for a check-in and the existing row's
value for a check-out; `hora_salida` is the scan time only for a
check-out; `procesado` is "1" only for a check-out.  The planificacion
SELECT carries no `id_lugar` column, so `.get('id_lugar', 1)` always
yields the default 1. -/
def marcacion_payload (plan_id ev trip : ℕ) (crew : String) (fecha : ℤ) (hora : ℚ)
    (usuario : String) (tipo : ℕ) (existente : Option Marcacion) : MarcacionData :=
  { id_planificacion := plan_id
    id_evento := ev
    id_tripulante := trip
    crew_id := crew
    fecha_marcacion := fecha
    hora_entrada := if tipo = 1 then some hora else existente.bind (fun m => m.hora_entrada)
    hora_salida := if tipo = 2 then some hora else none
    hora_marcacion := hora
    lugar_marcacion := 1
    punto_control := 1
    procesado := if tipo = 2 then "1" else "0"
    tipo_marcacion := tipo
    usuario := usuario
    transporte := 0
    alimentacion := 0 }

/-- The write phase of facial.py lines 198-257, applied to the record
observed for (tripulante, evento, today).  The source's inner branch on
the observed record assigns tipo 2 in both arms, mirrored here.  After
the write, a check-out also sets the planificacion estatus to "R". -/
def attendance_write (st : Db) (existente : Option Marcacion) (trip : ℕ) (crew : String)
    (ev : ℕ) (plan : Planificacion) (fecha : ℤ) (hora : ℚ) (usuario : String) :
    AttendanceResult :=
  let tipo : ℕ :=
    match existente with
    | some m => if m.hora_entrada.isSome && m.hora_salida.isNone then 2 else 2
    | none => 1
  let texto : String := if tipo = 2 then "Salida" else "Entrada"
  let data := marcacion_payload plan.id ev trip crew fecha hora usuario tipo existente
  match existente with
  | some m =>
    let st1 := update_marcacion st m.id_marcacion data
    let st2 := if tipo = 2 then update_planificacion_estatus st1 plan.id "R" else st1
    { st := st2, tipo_marcacion := tipo, tipo_texto := texto, marcacion_id := m.id_marcacion }
  | none =>
    let res := create_marcacion st data
    let st2 := if tipo = 2 then update_planificacion_estatus res.1 plan.id "R" else res.1
    { st := st2, tipo_marcacion := tipo, tipo_texto := texto, marcacion_id := res.2 }

/-- facial.py lines 187-257: read the existing record for
(tripulante, evento, today), then write. -/
def mark_attendance (st : Db) (trip : ℕ) (crew : String) (ev : ℕ) (plan : Planificacion)
    (fecha : ℤ) (hora : ℚ) (usuario : String) : AttendanceResult :=
  attendance_write st (verificar_marcacion_existente st trip ev fecha)
    trip crew ev plan fecha hora usuario

/-- The distinct terminal outcomes of the /recognize endpoint after a
match has been accepted.  `retry404` is the HTTP 404 response
"Mejora la luz para acertar el reconocimiento facial" shared by all
rejection paths; `personInactive` and `notAssigned` are the two
HTTP 403 responses. -/
inductive Outcome where
  | retry404 : Outcome
  | personInactive : Outcome
  | notAssigned : Outcome
  | recorded : ℕ → String → ℕ → Outcome
deriving DecidableEq

/-- facial.py lines 161-257: what happens to an accepted match.  The
person is looked up through `get_tripulante_by_field` (whose SQL keeps
only rows with `estatus = 1`); a person that is found but inactive
would get the 403 `personInactive` answer, then the planificacion is
required, and finally the attendance transition runs. -/
def process_accepted_match (st : Db) (crew : String) (ev : ℕ) (fecha : ℤ) (hora : ℚ)
    (usuario : String) : Outcome × Db :=
  match get_tripulante_by_crew st.tripulantes crew with
  | none => (.retry404, st)
  | some t =>
    if t.estatus ≠ 1 then (.personInactive, st)
    else
      match get_planificacion_evento st ev t.id_tripulante with
      | [] => (.notAssigned, st)
      | plan :: _ =>
        let r := mark_attendance st t.id_tripulante crew ev plan fecha hora usuario
        (.recorded r.tipo_marcacion r.tipo_texto r.marcacion_id, r.st)

/-! ## Claim theorems -/

/-- C1: on the distance-filtered candidate list, the verdict is decided
in order: empty list rejects with no_candidates; a best confidence
below the confidence threshold rejects with low_confidence; a
confidence gap to an existing runner-up strictly below the margin
rejects with ambiguous; otherwise the best candidate is accepted (a gap
of exactly the margin is accepted). -/
theorem decide_verdict_order (confThr margin : ℝ) :
    (decide_verdict confThr margin [] = Verdict.rejected RejectReason.no_candidates)
  ∧ (∀ (best : Candidate) (rest : List Candidate), best.confidence < confThr →
      decide_verdict confThr margin (best :: rest) = Verdict.rejected RejectReason.low_confidence)
  ∧ (∀ (best second : Candidate) (rest : List Candidate), confThr ≤ best.confidence →
      best.confidence - second.confidence < margin →
      decide_verdict confThr margin (best :: second :: rest) = Verdict.rejected RejectReason.ambiguous)
  ∧ (∀ (best second : Candidate) (rest : List Candidate), confThr ≤ best.confidence →
      margin ≤ best.confidence - second.confidence →
      decide_verdict confThr margin (best :: second :: rest) = Verdict.accepted best)
  ∧ (∀ best : Candidate, confThr ≤ best.confidence →
      decide_verdict confThr margin [best] = Verdict.accepted best) := by
  refine ⟨rfl, ?_, ?_, ?_, ?_⟩
  · intro best rest h
    simp [decide_verdict, h]
  · intro best second rest h1 h2
    simp [decide_verdict, not_lt.mpr h1, h2]
  · intro best second rest h1 h2
    simp [decide_verdict, not_lt.mpr h1, not_lt.mpr h2]
  · intro best h1
    simp [decide_verdict, not_lt.mpr h1]

/-- Witness for C1: with the default thresholds, a best confidence of
0.8 against a runner-up of 0.7 (a gap of exactly the 0.10 margin) is
accepted. -/
theorem decide_verdict_order_witness :
    ((FACE_CONFIDENCE_THRESHOLD : ℝ) ≤ (0.8 : ℝ))
  ∧ ((AMBIGUITY_MARGIN : ℝ) ≤ (0.8 : ℝ) - (0.7 : ℝ))
  ∧ decide_verdict (FACE_CONFIDENCE_THRESHOLD : ℝ) (AMBIGUITY_MARGIN : ℝ)
      [⟨1, "A17", 7, "N", "A", 0.4, 0.8, 1⟩, ⟨2, "B22", 8, "M", "B", 0.6, 0.7, 1⟩]
      = Verdict.accepted ⟨1, "A17", 7, "N", "A", 0.4, 0.8, 1⟩ := by
  have h1 : (FACE_CONFIDENCE_THRESHOLD : ℝ) ≤ (0.8 : ℝ) := by
    norm_num [FACE_CONFIDENCE_THRESHOLD]
  have h2 : (AMBIGUITY_MARGIN : ℝ) ≤ (0.8 : ℝ) - (0.7 : ℝ) := by
    norm_num [AMBIGUITY_MARGIN]
  exact ⟨h1, h2,
    (decide_verdict_order (FACE_CONFIDENCE_THRESHOLD : ℝ) (AMBIGUITY_MARGIN : ℝ)).2.2.2.1
      ⟨1, "A17", 7, "N", "A", 0.4, 0.8, 1⟩ ⟨2, "B22", 8, "M", "B", 0.6, 0.7, 1⟩ [] h1 h2⟩

/-- C8: the matching step is a pure function of the probe and the
gallery snapshot, so two evaluations on the same inputs return the
identical verdict. -/
theorem matcher_verdict_deterministic (q₁ q₂ : List ℝ) (g₁ g₂ : List StoredEmbedding)
    (thr₁ thr₂ confThr₁ confThr₂ margin₁ margin₂ : ℝ) (limit₁ limit₂ : ℕ)
    (hq : q₁ = q₂) (hg : g₁ = g₂) (hthr : thr₁ = thr₂) (hc : confThr₁ = confThr₂)
    (hm : margin₁ = margin₂) (hl : limit₁ = limit₂) :
    matcher_verdict q₁ g₁ thr₁ confThr₁ margin₁ limit₁ =
      matcher_verdict q₂ g₂ thr₂ confThr₂ margin₂ limit₂ := by
  subst hq hg hthr hc hm hl
  rfl

/-- Witness for C8 at a concrete probe and gallery. -/
theorem matcher_verdict_deterministic_witness :
    matcher_verdict [1] [] (FACE_DISTANCE_THRESHOLD : ℝ) (FACE_CONFIDENCE_THRESHOLD : ℝ)
        (AMBIGUITY_MARGIN : ℝ) 5 =
      matcher_verdict [1] [] (FACE_DISTANCE_THRESHOLD : ℝ) (FACE_CONFIDENCE_THRESHOLD : ℝ)
        (AMBIGUITY_MARGIN : ℝ) 5 :=
  matcher_verdict_deterministic _ _ _ _ _ _ _ _ _ _ _ _ rfl rfl rfl rfl rfl rfl

/-- C10: the upload validator accepts exactly the payloads of size in
[1000, MAX_UPLOAD_SIZE] starting with a JPEG, PNG or GIF magic header;
GIF content therefore passes although the configured extension list
holds only jpg, jpeg and png.  The validator is a total Boolean
function (it never raises). -/
theorem validate_image_file_spec :
    (∀ content : List ℕ, validate_image_file content = true ↔
      1000 ≤ content.length ∧ content.length ≤ MAX_UPLOAD_SIZE ∧
        ([0xff, 0xd8, 0xff].isPrefixOf content = true ∨
         [0x89, 0x50, 0x4e, 0x47, 0x0d, 0x0a, 0x1a, 0x0a].isPrefixOf content = true ∨
         [0x47, 0x49, 0x46, 0x38].isPrefixOf content = true))
  ∧ ALLOWED_IMAGE_EXTENSIONS = ["jpg", "jpeg", "png"]
  ∧ "gif" ∉ ALLOWED_IMAGE_EXTENSIONS
  ∧ (∀ content : List ℕ, 1000 ≤ content.length → content.length ≤ MAX_UPLOAD_SIZE →
      [0x47, 0x49, 0x46, 0x38].isPrefixOf content = true →
      validate_image_file content = true) := by
  have main : ∀ content : List ℕ, validate_image_file content = true ↔
      1000 ≤ content.length ∧ content.length ≤ MAX_UPLOAD_SIZE ∧
        ([0xff, 0xd8, 0xff].isPrefixOf content = true ∨
         [0x89, 0x50, 0x4e, 0x47, 0x0d, 0x0a, 0x1a, 0x0a].isPrefixOf content = true ∨
         [0x47, 0x49, 0x46, 0x38].isPrefixOf content = true) := by
    intro content
    unfold validate_image_file
    split_ifs with h1 h2 h3 h4 h5 <;> simp_all
  refine ⟨main, rfl, by decide, ?_⟩
  intro content hlen hmax hgif
  exact (main content).mpr ⟨hlen, hmax, Or.inr (Or.inr hgif)⟩

/-- Witness for C10: a 1000-byte GIF-headed payload validates. -/
theorem validate_image_file_witness :
    1000 ≤ ([0x47, 0x49, 0x46, 0x38] ++ List.replicate 996 0).length
  ∧ validate_image_file ([0x47, 0x49, 0x46, 0x38] ++ List.replicate 996 0) = true := by
  have hlen : ([0x47, 0x49, 0x46, 0x38] ++ List.replicate 996 0).length = 1000 := by
    rw [List.length_append, List.length_replicate]
    rfl
  refine ⟨by omega, ?_⟩
  exact validate_image_file_spec.2.2.2 _ (by omega) (by rw [hlen]; norm_num [MAX_UPLOAD_SIZE])
    (by decide)

/-- C2: when a record for (tripulante, evento, fecha) already exists —
whether or not hora_salida is already set — the accepted match updates
that record in place (no second row), sets hora_salida to the scan
time, keeps hora_entrada unchanged, sets procesado to "1", returns the
CheckOut transition (tipo 2 / "Salida"), and sets the planificacion
estatus to "R" (realizado). -/
theorem checkout_updates_existing (st : Db) (trip ev : ℕ) (crew : String)
    (plan : Planificacion) (fecha : ℤ) (hora : ℚ) (usuario : String) (m : Marcacion)
    (hfind : verificar_marcacion_existente st trip ev fecha = some m)
    (huniq : ∀ x ∈ st.marcaciones, x.id_marcacion = m.id_marcacion → x = m) :
    (mark_attendance st trip crew ev plan fecha hora usuario).tipo_marcacion = 2
  ∧ (mark_attendance st trip crew ev plan fecha hora usuario).tipo_texto = "Salida"
  ∧ (mark_attendance st trip crew ev plan fecha hora usuario).st.marcaciones.length
      = st.marcaciones.length
  ∧ (mark_attendance st trip crew ev plan fecha hora usuario).st.marcaciones
      = st.marcaciones.map (fun x => if x.id_marcacion = m.id_marcacion then
          apply_update m (marcacion_payload plan.id ev trip crew fecha hora usuario 2 (some m))
          else x)
  ∧ (apply_update m
        (marcacion_payload plan.id ev trip crew fecha hora usuario 2 (some m))).hora_salida
      = some hora
  ∧ (apply_update m
        (marcacion_payload plan.id ev trip crew fecha hora usuario 2 (some m))).hora_entrada
      = m.hora_entrada
  ∧ (apply_update m
        (marcacion_payload plan.id ev trip crew fecha hora usuario 2 (some m))).procesado = "1"
  ∧ (mark_attendance st trip crew ev plan fecha hora usuario).st.planificaciones
      = st.planificaciones.map (fun p => if p.id = plan.id then { p with estatus := "R" }
          else p) := by
  have hw : mark_attendance st trip crew ev plan fecha hora usuario =
      { st := update_planificacion_estatus
                (update_marcacion st m.id_marcacion
                  (marcacion_payload plan.id ev trip crew fecha hora usuario 2 (some m)))
                plan.id "R"
        tipo_marcacion := 2
        tipo_texto := "Salida"
        marcacion_id := m.id_marcacion } := by
    unfold mark_attendance
    rw [hfind]
    unfold attendance_write
    simp [ite_self]
  have hmap : (update_marcacion st m.id_marcacion
        (marcacion_payload plan.id ev trip crew fecha hora usuario 2 (some m))).marcaciones
      = st.marcaciones.map (fun x => if x.id_marcacion = m.id_marcacion then
          apply_update m (marcacion_payload plan.id ev trip crew fecha hora usuario 2 (some m))
          else x) := by
    unfold update_marcacion
    refine List.map_congr_left ?_
    intro x hx
    by_cases hid : x.id_marcacion = m.id_marcacion
    · rw [if_pos hid, if_pos hid, huniq x hx hid]
    · rw [if_neg hid, if_neg hid]
  refine ⟨by rw [hw], by rw [hw], ?_, ?_, ?_, ?_, ?_, ?_⟩
  · rw [hw]
    simp only [update_planificacion_estatus, update_marcacion]
    simp
  · rw [hw]
    show (update_marcacion st m.id_marcacion _).marcaciones = _
    exact hmap
  · simp [apply_update, marcacion_payload]
  · cases h : m.hora_entrada <;>
      simp [apply_update, marcacion_payload, h]
  · simp [apply_update, marcacion_payload]
  · rw [hw]
    show (update_marcacion st m.id_marcacion _).planificaciones.map _ = _
    rfl

/-- C3: when no record for (tripulante, evento, fecha) exists, the
accepted match inserts a fresh record with hora_entrada set to the scan
time, hora_salida unset, procesado "0", returns the CheckIn transition
(tipo 1 / "Entrada"), and leaves the planificacion rows (hence their
"P" estatus) untouched. -/
theorem checkin_creates_record (st : Db) (trip ev : ℕ) (crew : String)
    (plan : Planificacion) (fecha : ℤ) (hora : ℚ) (usuario : String)
    (hfind : verificar_marcacion_existente st trip ev fecha = none) :
    (mark_attendance st trip crew ev plan fecha hora usuario).tipo_marcacion = 1
  ∧ (mark_attendance st trip crew ev plan fecha hora usuario).tipo_texto = "Entrada"
  ∧ (mark_attendance st trip crew ev plan fecha hora usuario).st.marcaciones
      = st.marcaciones ++ [insertedRecord st.next_id
          (marcacion_payload plan.id ev trip crew fecha hora usuario 1 none)]
  ∧ (insertedRecord st.next_id
        (marcacion_payload plan.id ev trip crew fecha hora usuario 1 none)).hora_entrada
      = some hora
  ∧ (insertedRecord st.next_id
        (marcacion_payload plan.id ev trip crew fecha hora usuario 1 none)).hora_salida = none
  ∧ (insertedRecord st.next_id
        (marcacion_payload plan.id ev trip crew fecha hora usuario 1 none)).procesado = "0"
  ∧ (insertedRecord st.next_id
        (marcacion_payload plan.id ev trip crew fecha hora usuario 1 none)).tipo_marcacion = 1
  ∧ (mark_attendance st trip crew ev plan fecha hora usuario).st.planificaciones
      = st.planificaciones := by
  have hw : mark_attendance st trip crew ev plan fecha hora usuario =
      { st := (create_marcacion st
                (marcacion_payload plan.id ev trip crew fecha hora usuario 1 none)).1
        tipo_marcacion := 1
        tipo_texto := "Entrada"
        marcacion_id := st.next_id } := by
    unfold mark_attendance
    rw [hfind]
    unfold attendance_write
    simp [create_marcacion]
  refine ⟨by rw [hw], by rw [hw], by rw [hw]; rfl, ?_, ?_, ?_, ?_, by rw [hw]; rfl⟩
  · simp [insertedRecord, marcacion_payload]
  · simp [insertedRecord, marcacion_payload]
  · simp [insertedRecord, marcacion_payload]
  · simp [insertedRecord, marcacion_payload]

/-- Existing check-in row used by the C2 witness. -/
def sampleRec2 : Marcacion :=
  ⟨1, 5, 3, 7, "A17", 10, some 9, none, 9, 1, 1, "0", 1, "op", 0, 0⟩

/-- Planificacion row used by the C2/C3 witnesses. -/
def samplePlan : Planificacion := ⟨5, 3, 7, 8, "P"⟩

/-- Database state used by the C2 witness. -/
def sampleDb2 : Db :=
  ⟨[⟨7, "A17", "N", "A", 1⟩], [samplePlan], [sampleRec2], 2⟩

/-- Witness for C2: a second scan of the day at a concrete state with
one existing check-in yields a check-out. -/
theorem checkout_updates_existing_witness :
    verificar_marcacion_existente sampleDb2 7 3 10 = some sampleRec2
  ∧ (mark_attendance sampleDb2 7 "A17" 3 samplePlan 10 (19/2) "op").tipo_marcacion = 2
  ∧ (apply_update sampleRec2
        (marcacion_payload samplePlan.id 3 7 "A17" 10 (19/2) "op" 2 (some sampleRec2))).hora_entrada
      = sampleRec2.hora_entrada := by
  have hfind : verificar_marcacion_existente sampleDb2 7 3 10 = some sampleRec2 := by rfl
  have huniq : ∀ x ∈ sampleDb2.marcaciones, x.id_marcacion = sampleRec2.id_marcacion →
      x = sampleRec2 := by
    intro x hx _
    simpa [sampleDb2] using hx
  have h := checkout_updates_existing sampleDb2 7 3 "A17" samplePlan 10 (19/2) "op" sampleRec2
    hfind huniq
  exact ⟨hfind, h.1, h.2.2.2.2.2.1⟩

/-- Database state used by the C3 witness: no record yet today. -/
def sampleDb3 : Db :=
  ⟨[⟨7, "A17", "N", "A", 1⟩], [samplePlan], [], 1⟩

/-- Witness for C3: the first scan of the day at a concrete state with
no existing record yields a check-in. -/
theorem checkin_creates_record_witness :
    verificar_marcacion_existente sampleDb3 7 3 10 = none
  ∧ (mark_attendance sampleDb3 7 "A17" 3 samplePlan 10 9 "op").tipo_marcacion = 1
  ∧ (mark_attendance sampleDb3 7 "A17" 3 samplePlan 10 9 "op").st.planificaciones
      = sampleDb3.planificaciones := by
  have hfind : verificar_marcacion_existente sampleDb3 7 3 10 = none := rfl
  have h := checkin_creates_record sampleDb3 7 3 "A17" samplePlan 10 9 "op" hfind
  exact ⟨hfind, h.1, h.2.2.2.2.2.2.2⟩

/-- Database state used for C4: the matched person exists but is
inactive (estatus 0). -/
def sampleDb4 : Db :=
  ⟨[⟨7, "A17", "N", "A", 0⟩], [samplePlan], [], 1⟩

/-- Counterexample for C4: for an accepted match of an inactive person,
the endpoint does NOT return the distinct PersonInactive outcome.  The
person lookup `get_tripulante_by_field` filters on `estatus = 1`, so
the inactive person is simply not found and the pipeline answers with
the same generic 404 outcome as a failed match.  (No record is written.) -/
theorem inactive_person_counterexample :
    (∃ t ∈ sampleDb4.tripulantes, t.crew_id = "A17" ∧ t.estatus ≠ 1)
  ∧ (process_accepted_match sampleDb4 "A17" 3 10 9 "op").1 = Outcome.retry404
  ∧ (process_accepted_match sampleDb4 "A17" 3 10 9 "op").1 ≠ Outcome.personInactive := by
  refine ⟨⟨⟨7, "A17", "N", "A", 0⟩, by decide, by decide, by decide⟩, rfl, by decide⟩

/-- C4 amended: when every tripulantes row for the matched crew_id is
inactive, the active-filtered lookup finds nothing, the pipeline
returns the generic 404 retry outcome (the PersonInactive branch is
unreachable), and the database state is unchanged — no attendance
record is written. -/
theorem inactive_person_yields_retry404 (st : Db) (crew : String) (ev : ℕ) (fecha : ℤ)
    (hora : ℚ) (usuario : String)
    (h : ∀ t ∈ st.tripulantes, t.crew_id = crew → t.estatus ≠ 1) :
    process_accepted_match st crew ev fecha hora usuario = (Outcome.retry404, st) := by
  have hfind : get_tripulante_by_crew st.tripulantes crew = none := by
    rw [get_tripulante_by_crew, List.find?_eq_none]
    intro t ht
    simp only [Bool.and_eq_true, beq_iff_eq, not_and]
    intro hcrew
    exact fun he => h t ht hcrew he
  unfold process_accepted_match
  rw [hfind]

/-- Witness for the amended C4 at a concrete state. -/
theorem inactive_person_yields_retry404_witness :
    (∀ t ∈ sampleDb4.tripulantes, t.crew_id = "A17" → t.estatus ≠ 1)
  ∧ process_accepted_match sampleDb4 "A17" 3 10 9 "op" = (Outcome.retry404, sampleDb4) :=
  ⟨by decide, inactive_person_yields_retry404 sampleDb4 "A17" 3 10 9 "op" (by decide)⟩

/-- Membership in the unsorted match list: exactly the rows passing the
SQL activity filter whose vector length matches the probe and whose
distance is within the threshold. -/
lemma mem_rawCandidates {q : List ℝ} {thr : ℝ} {g : List StoredEmbedding} {c : Candidate} :
    c ∈ rawCandidates q thr g ↔ ∃ r ∈ g, r.active = true ∧ r.estatus = 1 ∧
      r.embedding.length = q.length ∧ calculate_face_distance q r.embedding ≤ thr ∧
      c = mkCandidate q r := by
  unfold rawCandidates galleryRows
  rw [List.mem_filterMap]
  constructor
  · rintro ⟨r, hr, hfr⟩
    rw [List.mem_filter] at hr
    obtain ⟨hrg, hflags⟩ := hr
    rw [Bool.and_eq_true, beq_iff_eq] at hflags
    split_ifs at hfr with hlen hd
    rw [Option.some.injEq] at hfr
    exact ⟨r, hrg, hflags.1, hflags.2, hlen, hd, hfr.symm⟩
  · rintro ⟨r, hrg, ha, he, hlen, hd, rfl⟩
    refine ⟨r, ?_, ?_⟩
    · rw [List.mem_filter]
      refine ⟨hrg, ?_⟩
      rw [Bool.and_eq_true, beq_iff_eq]
      exact ⟨ha, he⟩
    · rw [if_pos hlen, if_pos hd]

/-- Every candidate passed the distance filter. -/
lemma rawCandidates_distance_le {q : List ℝ} {thr : ℝ} {g : List StoredEmbedding}
    {c : Candidate} (h : c ∈ rawCandidates q thr g) : c.distance ≤ thr := by
  rw [mem_rawCandidates] at h
  obtain ⟨r, _, _, _, _, hd, rfl⟩ := h
  exact hd

/-- Filtering one distance class through an ordered insertion: the
inserted element lands in front of its class exactly when it has that
distance (all elements it skips are strictly closer). -/
lemma filter_distance_orderedInsert (d : ℝ) (a : Candidate) (l : List Candidate) :
    List.filter (fun c => decide (c.distance = d)) (List.orderedInsert candLE a l) =
      if a.distance = d
      then a :: List.filter (fun c => decide (c.distance = d)) l
      else List.filter (fun c => decide (c.distance = d)) l := by
  induction l with
  | nil =>
    simp only [List.orderedInsert_nil, List.filter_cons, List.filter_nil]
    by_cases h : a.distance = d <;> simp [h]
  | cons b l ih =>
    simp only [List.orderedInsert]
    by_cases hab : candLE a b
    · rw [if_pos hab]
      by_cases had : a.distance = d
      · simp [List.filter_cons, had]
      · simp [List.filter_cons, had]
    · rw [if_neg hab]
      have hba : b.distance < a.distance := not_le.mp hab
      rw [List.filter_cons, ih]
      by_cases had : a.distance = d
      · have hbd : ¬ b.distance = d := by
          rw [← had]
          exact ne_of_lt hba
        simp [had, hbd, List.filter_cons]
      · simp [had, List.filter_cons]

/-- Stability of the sort: within each distance class the sorted list
keeps the original (gallery) order. -/
lemma filter_distance_insertionSort (d : ℝ) (l : List Candidate) :
    List.filter (fun c => decide (c.distance = d)) (List.insertionSort candLE l) =
      List.filter (fun c => decide (c.distance = d)) l := by
  induction l with
  | nil => rfl
  | cons a l ih =>
    simp only [List.insertionSort]
    rw [filter_distance_orderedInsert, ih, List.filter_cons]
    by_cases had : a.distance = d <;> simp [had]

/-- C5: the match list contains exactly the candidates built from
active gallery rows with a probe-length vector within the distance
threshold; it is sorted ascending by distance; RHS ties keep gallery
order (first registered wins); and at most `limit` (default 5)
candidates are returned. -/
theorem find_best_face_matches_spec (q : List ℝ) (thr : ℝ) (limit : ℕ)
    (g : List StoredEmbedding) (hl : 0 < limit) :
    (∀ c : Candidate, c ∈ sortedCandidates q thr g ↔ ∃ r ∈ g, r.active = true ∧
        r.estatus = 1 ∧ r.embedding.length = q.length ∧
        calculate_face_distance q r.embedding ≤ thr ∧ c = mkCandidate q r)
  ∧ find_best_face_matches q thr limit g = (sortedCandidates q thr g).take limit
  ∧ (find_best_face_matches q thr limit g).length ≤ limit
  ∧ List.Sorted candLE (find_best_face_matches q thr limit g)
  ∧ (∀ d : ℝ, List.filter (fun c => decide (c.distance = d)) (sortedCandidates q thr g) =
      List.filter (fun c => decide (c.distance = d)) (rawCandidates q thr g)) := by
  have htake : find_best_face_matches q thr limit g = (sortedCandidates q thr g).take limit := by
    unfold find_best_face_matches
    rw [if_pos (Nat.pos_iff_ne_zero.mp hl)]
  refine ⟨?_, htake, ?_, ?_, ?_⟩
  · intro c
    unfold sortedCandidates
    rw [(List.perm_insertionSort candLE _).mem_iff]
    exact mem_rawCandidates
  · rw [htake]
    exact List.length_take_le _ _
  · rw [htake]
    unfold sortedCandidates
    exact List.Pairwise.sublist (List.take_sublist _ _) (List.sorted_insertionSort candLE _)
  · intro d
    unfold sortedCandidates
    exact filter_distance_insertionSort d _

/-- A small concrete gallery used by the C5 witness. -/
noncomputable def sampleGallery : List StoredEmbedding :=
  [⟨1, "A17", 7, "N", "A", [1, 0], 1, true, 1⟩,
   ⟨2, "B22", 8, "M", "B", [0, 1], 1, true, 1⟩]

/-- Witness for C5 at a concrete probe and gallery, with the default
limit 5. -/
theorem find_best_face_matches_spec_witness :
    0 < MAX_FACE_MATCHES
  ∧ (find_best_face_matches [1, 0] (FACE_DISTANCE_THRESHOLD : ℝ) MAX_FACE_MATCHES
      sampleGallery).length ≤ MAX_FACE_MATCHES :=
  ⟨by norm_num [MAX_FACE_MATCHES],
   (find_best_face_matches_spec [1, 0] (FACE_DISTANCE_THRESHOLD : ℝ) MAX_FACE_MATCHES
      sampleGallery (by norm_num [MAX_FACE_MATCHES])).2.2.1⟩

/-- The pointwise square of the diagonal zip. -/
lemma zipWith_mul_self (l : List ℝ) : List.zipWith (· * ·) l l = l.map (fun x => x * x) :=
  List.zipWith_same _ l

/-- A vector with a nonzero coordinate has positive self dot product. -/
lemma dotList_self_pos {u : List ℝ} (h : ∃ x ∈ u, x ≠ 0) : 0 < dotList u u := by
  obtain ⟨x, hx, hx0⟩ := h
  unfold dotList
  rw [zipWith_mul_self]
  have hmem : x * x ∈ u.map (fun y => y * y) := List.mem_map_of_mem _ hx
  have hnn : ∀ a ∈ u.map (fun y => y * y), (0 : ℝ) ≤ a := by
    intro a ha
    rw [List.mem_map] at ha
    obtain ⟨y, _, rfl⟩ := ha
    exact mul_self_nonneg y
  exact lt_of_lt_of_le (mul_self_pos.mpr hx0) (List.single_le_sum hnn _ hmem)

/-- The self distance of a vector with nonzero norm is zero. -/
lemma calculate_face_distance_self {u : List ℝ} (h : ∃ x ∈ u, x ≠ 0) :
    calculate_face_distance u u = 0 := by
  have hpos := dotList_self_pos h
  unfold calculate_face_distance scipy_cosine
  rw [if_pos rfl]
  simp only [Option.getD_some]
  rw [Real.mul_self_sqrt (le_of_lt hpos), div_self (ne_of_gt hpos)]
  ring

/-- C6 (amended): every candidate's confidence is the clamp
`max 0 (min 1 (1 - distance/2))`, hence lies in [0, 1] and is
antitone in the distance; identical vectors of nonzero norm are at
cosine distance 0 with confidence 1. -/
theorem confidence_clamp_spec :
    (∀ (q : List ℝ) (thr : ℝ) (g : List StoredEmbedding) (c : Candidate),
        c ∈ rawCandidates q thr g → c.confidence = max 0 (min 1 (1 - c.distance / 2)))
  ∧ (∀ d : ℝ, 0 ≤ confidenceOf d ∧ confidenceOf d ≤ 1)
  ∧ (∀ d₁ d₂ : ℝ, d₁ ≤ d₂ → confidenceOf d₂ ≤ confidenceOf d₁)
  ∧ (∀ u : List ℝ, (∃ x ∈ u, x ≠ 0) →
      calculate_face_distance u u = 0 ∧ confidenceOf (calculate_face_distance u u) = 1) := by
  refine ⟨?_, ?_, ?_, ?_⟩
  · intro q thr g c hc
    rw [mem_rawCandidates] at hc
    obtain ⟨r, _, _, _, _, _, rfl⟩ := hc
    rfl
  · intro d
    exact ⟨le_max_left 0 _, max_le (by norm_num) (min_le_left _ _)⟩
  · intro d₁ d₂ hle
    unfold confidenceOf
    exact max_le_max le_rfl (min_le_min le_rfl (by linarith))
  · intro u h
    have h0 := calculate_face_distance_self h
    refine ⟨h0, ?_⟩
    rw [h0]
    unfold confidenceOf
    norm_num

/-- Counterexample for C6 as stated: at the zero vector the self cosine
distance is not 0.  The exact model value is 1 (division by the zero
norm is totalised to 0); the floating-point source yields NaN there —
in both readings the claimed distance 0 is refuted, and only vectors of
nonzero norm satisfy the property. -/
theorem zero_vector_distance_counterexample :
    calculate_face_distance [(0 : ℝ)] [(0 : ℝ)] ≠ 0 := by
  unfold calculate_face_distance scipy_cosine dotList
  norm_num

/-- Witness for the amended C6 at the one-hot vector [1]. -/
theorem confidence_clamp_spec_witness :
    (∃ x ∈ [(1 : ℝ)], x ≠ 0) ∧ calculate_face_distance [(1 : ℝ)] [(1 : ℝ)] = 0 := by
  have h : ∃ x ∈ [(1 : ℝ)], x ≠ 0 := ⟨1, by simp, one_ne_zero⟩
  exact ⟨h, (confidence_clamp_spec.2.2.2 [(1 : ℝ)] h).1⟩

/-- An accepted verdict always returns a member of the match list. -/
lemma verdict_accepted_mem {confThr margin : ℝ} {l : List Candidate} {b : Candidate}
    (h : decide_verdict confThr margin l = Verdict.accepted b) : b ∈ l := by
  rcases l with _ | ⟨best, _ | ⟨second, rest⟩⟩
  · exact absurd h (by simp [decide_verdict])
  · simp only [decide_verdict] at h
    split_ifs at h
    injection h with hb
    rw [← hb]
    exact List.mem_cons_self _ _
  · simp only [decide_verdict] at h
    split_ifs at h
    injection h with hb
    rw [← hb]
    exact List.mem_cons_self _ _

/-- Every returned match comes from the filtered candidate set. -/
lemma mem_find_best_raw {q : List ℝ} {thr : ℝ} {limit : ℕ} {g : List StoredEmbedding}
    {c : Candidate} (h : c ∈ find_best_face_matches q thr limit g) :
    c ∈ rawCandidates q thr g := by
  have hsorted : c ∈ sortedCandidates q thr g := by
    unfold find_best_face_matches at h
    split_ifs at h
    · exact (List.take_sublist _ _).subset h
    · exact h
  unfold sortedCandidates at hsorted
  exact (List.perm_insertionSort candLE _).mem_iff.mp hsorted

/-- C9: when the cosine distance computation fails (`scipy` raises,
e.g. on a vector length mismatch), `calculate_face_distance` totalises
the error to the maximum distance 2.0, the derived confidence is 0, and
for any distance threshold below 2.0 the template can neither appear
among the candidates nor be accepted. -/
theorem distance_error_totalized (u v : List ℝ) (h : scipy_cosine u v = none) :
    calculate_face_distance u v = 2
  ∧ confidenceOf (calculate_face_distance u v) = 0
  ∧ (∀ thr : ℝ, thr < 2 → ¬ calculate_face_distance u v ≤ thr)
  ∧ (∀ (thr : ℝ) (g : List StoredEmbedding) (r : StoredEmbedding), thr < 2 →
      r.embedding = v → mkCandidate u r ∉ rawCandidates u thr g)
  ∧ (∀ (thr confThr margin : ℝ) (limit : ℕ) (g : List StoredEmbedding)
      (r : StoredEmbedding), thr < 2 → r.embedding = v →
      decide_verdict confThr margin (find_best_face_matches u thr limit g)
        ≠ Verdict.accepted (mkCandidate u r)) := by
  have h2 : calculate_face_distance u v = 2 := by
    unfold calculate_face_distance
    rw [h]
    rfl
  have hdist : ∀ r : StoredEmbedding, r.embedding = v → (mkCandidate u r).distance = 2 := by
    intro r hr
    show calculate_face_distance u r.embedding = 2
    rw [hr, h2]
  refine ⟨h2, ?_, ?_, ?_, ?_⟩
  · rw [h2]
    unfold confidenceOf
    norm_num
  · intro thr hthr hle
    rw [h2] at hle
    linarith
  · intro thr g r hthr hr hmem
    have hd := rawCandidates_distance_le hmem
    rw [hdist r hr] at hd
    linarith
  · intro thr confThr margin limit g r hthr hr hacc
    have hmem := verdict_accepted_mem hacc
    have hraw := mem_find_best_raw hmem
    have hd := rawCandidates_distance_le hraw
    rw [hdist r hr] at hd
    linarith

/-- Witness for C9 at a concrete length mismatch. -/
theorem distance_error_totalized_witness :
    scipy_cosine [(1 : ℝ)] [(1 : ℝ), 0] = none
  ∧ calculate_face_distance [(1 : ℝ)] [(1 : ℝ), 0] = 2 := by
  have h : scipy_cosine [(1 : ℝ)] [(1 : ℝ), 0] = none := by
    unfold scipy_cosine
    norm_num
  exact ⟨h, (distance_error_totalized [(1 : ℝ)] [(1 : ℝ), 0] h).1⟩
